import Mathlib

set_option maxRecDepth 400000
set_option maxHeartbeats 2000000

/-!
Verification model of `build.py`, a static-site generator that converts a
fixed tree of Markdown documentation files into HTML pages.  The Python
source is shallowly embedded: strings are Lean `String`s, Python's
`str.replace` / `str.count` / `in` / `str.strip` are modelled on `List Char`,
the hard-coded `NAV_STRUCTURE` list of dicts becomes a mutual inductive
tree, and the build driver becomes a pure function from an abstract input
file system (`String → Option String`) to the list of written files.

The recursive string scanners below take an explicit fuel argument equal to
the input length (each step consumes at least one character, so this fuel is
always sufficient); this keeps them structurally recursive so that concrete
instances reduce inside the kernel.  Fuel-irrelevance lemmas recover the
fuel-free defining equations.
-/

/-- Python's `str.replace(pat, rep)` on character lists: scan left to right,
replacing every non-overlapping occurrence of `pat` by `rep`; the replacement
text is emitted verbatim and never rescanned.  `fuel` bounds the number of
scan steps.  (Only called with a non-empty `pat` in this development,
matching every call site in `build.py`.) -/
def pyReplaceAux (pat rep : List Char) : Nat → List Char → List Char
  | 0, s => s
  | _ + 1, [] => []
  | fuel + 1, c :: cs =>
    if !pat.isEmpty && pat.isPrefixOf (c :: cs) then
      rep ++ pyReplaceAux pat rep fuel ((c :: cs).drop pat.length)
    else
      c :: pyReplaceAux pat rep fuel cs

/-- List-level `str.replace`, with the canonical (always sufficient) fuel. -/
def pyReplL (pat rep s : List Char) : List Char :=
  pyReplaceAux pat rep s.length s

/-- String-level model of Python's `s.replace(pat, rep)`. -/
def pyReplace (s pat rep : String) : String :=
  String.mk (pyReplL pat.data rep.data s.data)

/-- Python's `str.count(pat)` for a non-empty `pat`: the number of
non-overlapping occurrences, scanning left to right. -/
def pyCountAux (pat : List Char) : Nat → List Char → Nat
  | 0, _ => 0
  | _ + 1, [] => 0
  | fuel + 1, c :: cs =>
    if !pat.isEmpty && pat.isPrefixOf (c :: cs) then
      1 + pyCountAux pat fuel ((c :: cs).drop pat.length)
    else
      pyCountAux pat fuel cs

/-- List-level `str.count`, with the canonical fuel. -/
def pyCntL (pat s : List Char) : Nat :=
  pyCountAux pat s.length s

/-- String-level model of Python's `s.count(pat)`. -/
def pyCount (s pat : String) : Nat :=
  pyCntL pat.data s.data

/-- Python's `pat in s` substring test on character lists. -/
def containsSubL (pat : List Char) : List Char → Bool
  | [] => pat.isPrefixOf []
  | c :: cs => pat.isPrefixOf (c :: cs) || containsSubL pat cs

/-- String-level substring test (`pat in s` in Python). -/
def containsSub (s pat : String) : Bool :=
  containsSubL pat.data s.data

/-- Whitespace characters recognised by Python's `str.strip()` and `\s`
(restricted to ASCII, which covers every input in this development). -/
def isPySpace (c : Char) : Bool :=
  c == ' ' || c == '\t' || c == '\n' || c == '\r' || c == '\x0b' || c == '\x0c'

/-- Python's `str.strip()` on character lists: drop leading and trailing
whitespace. -/
def pyStripL (l : List Char) : List Char :=
  ((l.dropWhile isPySpace).reverse.dropWhile isPySpace).reverse

/-- String-level model of Python's `s.strip()`. -/
def pyStrip (s : String) : String :=
  String.mk (pyStripL s.data)

/-- Python's `s * n` string repetition (used for `'../' * depth`). -/
def pyRepeat (s : String) : Nat → String
  | 0 => ""
  | n + 1 => s ++ pyRepeat s n

/-- Python's `sep.join(parts)`. -/
def joinWith (sep : String) : List String → String
  | [] => ""
  | [x] => x
  | x :: y :: rest => x ++ sep ++ joinWith sep (y :: rest)

/-- Tail-recursive character-list equality scanner, used to check large
concrete string equalities without deep kernel recursion. -/
def beqChars : List Char → List Char → Bool
  | [], [] => true
  | a :: as, b :: bs => a == b && beqChars as bs
  | _, _ => false

/-- Scanner asserting that no occurrence of `pat` starts inside `a` when `a`
is immediately followed by `b` (occurrences may still start inside `b`). -/
def noStartIn (pat : List Char) : List Char → List Char → Bool
  | [], _ => true
  | c :: a, b => !pat.isPrefixOf ((c :: a) ++ b) && noStartIn pat a b

/-- Index of the last newline in a character list, if any. -/
def lastNewline : List Char → Option Nat
  | [] => none
  | c :: cs =>
    match lastNewline cs with
    | some k => some (k + 1)
    | none => if c == '\n' then some 0 else none

/-- Index of the first occurrence of `pat`, if any. -/
def findSubIdx (pat : List Char) : List Char → Option Nat
  | [] => if pat.isEmpty then some 0 else none
  | c :: cs =>
    if pat.isPrefixOf (c :: cs) then some 0
    else (findSubIdx pat cs).map (· + 1)

/-- The replacement callback `replace_mermaid` of `build.py`: wrap the
stripped body of a mermaid fence in a `<div class="mermaid">` element. -/
def replace_mermaid (body : String) : String :=
  "<div class=\"mermaid\">\n" ++ pyStrip body ++ "\n</div>"

/-- One attempted match of the regex ```` ```mermaid\s*\n(.*?)\n``` ````
(with `re.DOTALL`) at the head of `s`.  The literal fence opener must match
first; `\s*\n` then consumes the whitespace run up to and including its last
newline (greedy `\s*` with backtracking); the non-greedy group ends at the
first following newline-plus-fence.  Returns the group text and the
remainder after the whole match. -/
def mermaidTryMatch (s : List Char) : Option (List Char × List Char) :=
  if "```mermaid".data.isPrefixOf s then
    let r := s.drop 10
    let w := r.takeWhile isPySpace
    match lastNewline w with
    | none => none
    | some k =>
      let rest := r.drop (k + 1)
      match findSubIdx "\n```".data rest with
      | none => none
      | some j => some (rest.take j, rest.drop (j + 4))
  else none

/-- The `re.sub` scan of `convert_md_to_html`: at each position try the
mermaid-fence match; on success emit the replacement and continue after the
match, otherwise keep one character and move on. -/
def mermaidSubAux : Nat → List Char → List Char
  | 0, s => s
  | _ + 1, [] => []
  | fuel + 1, c :: cs =>
    match mermaidTryMatch (c :: cs) with
    | some (body, rem) =>
      (replace_mermaid (String.mk body)).data ++ mermaidSubAux fuel rem
    | none => c :: mermaidSubAux fuel cs

/-- The mermaid pre-pass of `convert_md_to_html` (lines 241-246 of
`build.py`): rewrite every ```` ```mermaid ```` fenced block into a
`<div class="mermaid">` element carrying the stripped body. -/
def mermaid_sub (s : String) : String :=
  String.mk (mermaidSubAux s.data.length s.data)

/-- The function `convert_md_to_html` of `build.py`.  The second step — the
third-party `markdown.Markdown(extensions=[...]).convert` call — is not part
of this repository; it is abstracted as the parameter `mdConvert`. -/
def convert_md_to_html (mdConvert : String → String) (md_content : String) : String :=
  mdConvert (mermaid_sub md_content)

/-- The HTML shell template returned by `get_html_template` in `build.py`
(lines 151-232), as a single string literal.  Braces, apostrophes and quotes
are written with escape sequences. -/
def get_html_template : String :=
  "<!DOCTYPE html>\n<html lang=\"en\">\n<head>\n    <meta charset=\"UTF-8\">\n    <meta name=\"viewport\" content=\"width=device-width, initial-scale=1.0\">\n    <title>\x7b\x7bTITLE\x7d\x7d - C Pro Camera Server Documentation</title>\n    <link rel=\"stylesheet\" href=\"\x7b\x7bBASE_PATH\x7d\x7dassets/style.css\">\n    <link rel=\"stylesheet\" href=\"https://cdnjs.cloudflare.com/ajax/libs/highlight.js/11.9.0/styles/github-dark.min.css\">\n    <script src=\"https://cdn.jsdelivr.net/npm/mermaid@10/dist/mermaid.min.js\"></script>\n</head>\n<body>\n    <div class=\"container\">\n        <aside class=\"sidebar\">\n            <div class=\"sidebar-header\">\n                <h1><a href=\"\x7b\x7bBASE_PATH\x7d\x7dindex.html\">C Pro Docs</a></h1>\n                <p>Camera Server Documentation</p>\n            </div>\n            <nav class=\"sidebar-nav\">\n                <ul class=\"nav-menu\">\n                    \x7b\x7bNAVIGATION\x7d\x7d\n                </ul>\n            </nav>\n        </aside>\n        \n        <main class=\"content\">\n            <div class=\"content-wrapper\">\n                \x7b\x7bCONTENT\x7d\x7d\n            </div>\n            <footer class=\"content-footer\">\n                <p>Copyright \u00a9 2025 Rotoclear</p>\n            </footer>\n        </main>\n        \n        <button class=\"mobile-menu-toggle\" id=\"menuToggle\" aria-label=\"Toggle menu\">\u2630</button>\n    </div>\n    \n    <script src=\"https://cdnjs.cloudflare.com/ajax/libs/highlight.js/11.9.0/highlight.min.js\"></script>\n    <script>\n        // Initialize Mermaid\n        mermaid.initialize(\x7b \n            startOnLoad: true,\n            theme: \x27default\x27,\n            securityLevel: \x27loose\x27,\n            fontFamily: \x27Inter, sans-serif\x27\n        \x7d);\n        \n        // Syntax highlighting\n        hljs.highlightAll();\n        \n        // Mobile menu toggle\n        const menuToggle = document.getElementById(\x27menuToggle\x27);\n        const sidebar = document.querySelector(\x27.sidebar\x27);\n        \n        menuToggle.addEventListener(\x27click\x27, () => \x7b\n            sidebar.classList.toggle(\x27active\x27);\n        \x7d);\n        \n        // Close sidebar when clicking outside on mobile\n        document.addEventListener(\x27click\x27, (e) => \x7b\n            if (window.innerWidth <= 768 && \n                !sidebar.contains(e.target) && \n                !menuToggle.contains(e.target) &&\n                sidebar.classList.contains(\x27active\x27)) \x7b\n                sidebar.classList.remove(\x27active\x27);\n            \x7d\n        \x7d);\n        \n        // Smooth scroll for anchor links\n        document.querySelectorAll(\x27a[href^=\"#\"]\x27).forEach(anchor => \x7b\n            anchor.addEventListener(\x27click\x27, function (e) \x7b\n                e.preventDefault();\n                const target = document.querySelector(this.getAttribute(\x27href\x27));\n                if (target) \x7b\n                    target.scrollIntoView(\x7b behavior: \x27smooth\x27 \x7d);\n                \x7d\n            \x7d);\n        \x7d);\n    </script>\n</body>\n</html>"

/-- Segments of the shell template around its placeholder tokens: the
template is `tmplSeg0 ++ TITLE_TOKEN ++ tmplSeg1 ++ BASE_PATH_TOKEN ++
tmplSeg2 ++ BASE_PATH_TOKEN ++ tmplSeg3 ++ NAVIGATION_TOKEN ++ tmplSeg4 ++
CONTENT_TOKEN ++ tmplSeg5` (proved below as `template_split`). -/
def tmplSeg0 : String :=
  "<!DOCTYPE html>\n<html lang=\"en\">\n<head>\n    <meta charset=\"UTF-8\">\n    <meta name=\"viewport\" content=\"width=device-width, initial-scale=1.0\">\n    <title>"

def tmplSeg1 : String :=
  " - C Pro Camera Server Documentation</title>\n    <link rel=\"stylesheet\" href=\""

def tmplSeg2 : String :=
  "assets/style.css\">\n    <link rel=\"stylesheet\" href=\"https://cdnjs.cloudflare.com/ajax/libs/highlight.js/11.9.0/styles/github-dark.min.css\">\n    <script src=\"https://cdn.jsdelivr.net/npm/mermaid@10/dist/mermaid.min.js\"></script>\n</head>\n<body>\n    <div class=\"container\">\n        <aside class=\"sidebar\">\n            <div class=\"sidebar-header\">\n                <h1><a href=\""

def tmplSeg3 : String :=
  "index.html\">C Pro Docs</a></h1>\n                <p>Camera Server Documentation</p>\n            </div>\n            <nav class=\"sidebar-nav\">\n                <ul class=\"nav-menu\">\n                    "

def tmplSeg4 : String :=
  "\n                </ul>\n            </nav>\n        </aside>\n        \n        <main class=\"content\">\n            <div class=\"content-wrapper\">\n                "

def tmplSeg5 : String :=
  "\n            </div>\n            <footer class=\"content-footer\">\n                <p>Copyright \u00a9 2025 Rotoclear</p>\n            </footer>\n        </main>\n        \n        <button class=\"mobile-menu-toggle\" id=\"menuToggle\" aria-label=\"Toggle menu\">\u2630</button>\n    </div>\n    \n    <script src=\"https://cdnjs.cloudflare.com/ajax/libs/highlight.js/11.9.0/highlight.min.js\"></script>\n    <script>\n        // Initialize Mermaid\n        mermaid.initialize(\x7b \n            startOnLoad: true,\n            theme: \x27default\x27,\n            securityLevel: \x27loose\x27,\n            fontFamily: \x27Inter, sans-serif\x27\n        \x7d);\n        \n        // Syntax highlighting\n        hljs.highlightAll();\n        \n        // Mobile menu toggle\n        const menuToggle = document.getElementById(\x27menuToggle\x27);\n        const sidebar = document.querySelector(\x27.sidebar\x27);\n        \n        menuToggle.addEventListener(\x27click\x27, () => \x7b\n            sidebar.classList.toggle(\x27active\x27);\n        \x7d);\n        \n        // Close sidebar when clicking outside on mobile\n        document.addEventListener(\x27click\x27, (e) => \x7b\n            if (window.innerWidth <= 768 && \n                !sidebar.contains(e.target) && \n                !menuToggle.contains(e.target) &&\n                sidebar.classList.contains(\x27active\x27)) \x7b\n                sidebar.classList.remove(\x27active\x27);\n            \x7d\n        \x7d);\n        \n        // Smooth scroll for anchor links\n        document.querySelectorAll(\x27a[href^=\"#\"]\x27).forEach(anchor => \x7b\n            anchor.addEventListener(\x27click\x27, function (e) \x7b\n                e.preventDefault();\n                const target = document.querySelector(this.getAttribute(\x27href\x27));\n                if (target) \x7b\n                    target.scrollIntoView(\x7b behavior: \x27smooth\x27 \x7d);\n                \x7d\n            \x7d);\n        \x7d);\n    </script>\n</body>\n</html>"

/-- The four placeholder tokens of the shell template. -/
def TITLE_TOKEN : String := "\x7b\x7bTITLE\x7d\x7d"

def BASE_PATH_TOKEN : String := "\x7b\x7bBASE_PATH\x7d\x7d"

def NAVIGATION_TOKEN : String := "\x7b\x7bNAVIGATION\x7d\x7d"

def CONTENT_TOKEN : String := "\x7b\x7bCONTENT\x7d\x7d"

/-! Navigation entries of `NAV_STRUCTURE`: a Python dict with a `"children"`
key behaves as a folder (its `"path"`, if any, is ignored by both
`generate_nav_html` and `process_nav_item`); otherwise it is a single page
whose `"path"` key may be absent (`item.get("path", "")`). -/
mutual

inductive NavItem where
  | folder : String → NavForest → NavItem
  | page : String → Option String → NavItem

inductive NavForest where
  | nil : NavForest
  | cons : NavItem → NavForest → NavForest

end

/-- Conversion from a Lean list literal, for readable navigation trees. -/
def NavForest.ofList : List NavItem → NavForest
  | [] => .nil
  | i :: rest => .cons i (NavForest.ofList rest)

/-- The hard-coded navigation structure of `build.py` (lines 16-124). -/
def NAV_STRUCTURE : NavForest := .ofList [
  .page "Home" (some "index.md"),
  .page "Getting Started" (some "getting-started.md"),
  .folder "Architecture" (.ofList [
    .page "Overview" (some "architecture/overview.md"),
    .page "State Management" (some "architecture/state-management.md"),
    .page "Camera Pipeline" (some "architecture/camera-pipeline.md"),
    .page "Metadata & SQLite" (some "architecture/metadata-sqlite.md"),
    .folder "Decisions" (.ofList [
      .page "ADR-0001 Nim Language" (some "architecture/decisions/ADR-0001-nim-language.md"),
      .page "ADR-0002 Corun Framework" (some "architecture/decisions/ADR-0002-corun-framework.md"),
      .page "ADR-0003 Observable State" (some "architecture/decisions/ADR-0003-observable-state.md")])]),
  .folder "API Reference" (.ofList [
    .page "Overview" (some "api/README.md"),
    .page "WebSocket API" (some "api/websocket-api.md"),
    .page "HTTP API" (some "api/http-api.md"),
    .page "RTSP Streaming" (some "api/rtsp-streaming.md"),
    .folder "Examples" (.ofList [
      .page "Python Client" (some "api/examples/python-client.md"),
      .page "JavaScript Client" (some "api/examples/javascript-client.md"),
      .page "C# Client" (some "api/examples/csharp-client.md")])]),
  .folder "Configuration" (.ofList [
    .page "Environments" (some "configuration/environments.md"),
    .page "Factory Config" (some "configuration/factory-config.md"),
    .page "License Config" (some "configuration/license-config.md"),
    .page "Deployment Variants" (some "configuration/deployment-variants.md"),
    .page "Camera System" (some "configuration/camera-system.md"),
    .page "Network" (some "configuration/network.md"),
    .page "Storage & Backup" (some "configuration/storage-backup.md"),
    .page "Authentication" (some "configuration/authentication.md")]),
  .folder "Camera System" (.ofList [
    .page "Hardware Interface" (some "camera/hardware-interface.md"),
    .page "Streaming" (some "camera/streaming.md"),
    .page "Recording" (some "camera/recording.md"),
    .page "Image Processing" (some "camera/image-processing.md")]),
  .folder "Operations" (.ofList [
    .page "Build and Deploy" (some "operations/build-and-deploy.md"),
    .page "Build & Deploy (Alt)" (some "operations/build-deploy.md"),
    .page "Monitoring" (some "operations/monitoring.md"),
    .page "Performance" (some "operations/performance.md"),
    .page "Troubleshooting" (some "operations/troubleshooting.md")]),
  .folder "Security" (.ofList [
    .page "Authentication" (some "security/authentication.md"),
    .page "Permissions" (some "security/permissions.md"),
    .page "SSL Certificates" (some "security/ssl-certificates.md")]),
  .folder "Testing" (.ofList [
    .page "Strategy" (some "testing/testing-strategy.md"),
    .page "Strategies" (some "testing/strategies.md"),
    .page "Test Cases" (some "testing/test-cases.md"),
    .page "Validation" (some "testing/validation.md")]),
  .folder "Integration" (.ofList [
    .page "ONVIF Protocol" (some "integration/onvif-protocol.md"),
    .page "Third Party" (some "integration/third-party.md")]),
  .folder "Reference" (.ofList [
    .page "Glossary" (some "reference/glossary.md"),
    .page "Requirements" (some "reference/requirements.md"),
    .page "State Observables" (some "reference/state-observables.md")]),
  .folder "Releases" (.ofList [
    .page "Changelog" (some "releases/CHANGELOG.md")]),
  .page "Glossary" (some "glossary.md")]

/-- Output-path computation shared by `generate_nav_html` (line 142) and
`process_nav_item` (line 293): `path.replace(".md", ".html")`, a plain
substring replacement affecting every occurrence. -/
def html_path_of (path : String) : String :=
  pyReplace path ".md" ".html"

/-! The function `generate_nav_html` of `build.py` (lines 127-148), split
into the per-item lines, the per-forest lines, and the final newline join.
A folder contributes its six lines with the joined sub-forest as the fourth;
a page contributes its three lines, with the `active` class iff its computed
output path equals `current_path`, and the link target
`base_path + html_path`. -/
mutual

def navItemLines (i : NavItem) (current_path : String) (depth : Nat)
    (base_path : String) : List String :=
  match i with
  | .folder title children =>
    ["<li class=\"nav-folder depth-" ++ toString depth ++ "\">",
     "<span class=\"folder-title\">" ++ title ++ "</span>",
     "<ul class=\"nav-submenu\">",
     joinWith "\n" (navForestLines children current_path (depth + 1) base_path),
     "</ul>",
     "</li>"]
  | .page title path? =>
    let path := path?.getD ""
    let html_path := html_path_of path
    let is_active := html_path == current_path
    let active_class := if is_active then " active" else ""
    ["<li class=\"nav-item depth-" ++ toString depth ++ active_class ++ "\">",
     "<a href=\"" ++ base_path ++ html_path ++ "\">" ++ title ++ "</a>",
     "</li>"]

def navForestLines (f : NavForest) (current_path : String) (depth : Nat)
    (base_path : String) : List String :=
  match f with
  | .nil => []
  | .cons i rest =>
    navItemLines i current_path depth base_path ++
      navForestLines rest current_path depth base_path

end

/-- The function `generate_nav_html` itself: the per-level lines joined by
newlines (the recursive call on a folder's children inside `navItemLines`
is this same join). -/
def generate_nav_html (nav_items : NavForest) (current_path : String)
    (depth : Nat) (base_path : String) : String :=
  joinWith "\n" (navForestLines nav_items current_path depth base_path)

/-! Computed output paths of the page links rendered by
`generate_nav_html`, in rendering order (one entry per page item). -/
mutual

def navItemHtmlPaths (i : NavItem) : List String :=
  match i with
  | .folder _ children => navForestHtmlPaths children
  | .page _ path? => [html_path_of (path?.getD "")]

def navForestHtmlPaths : NavForest → List String
  | .nil => []
  | .cons i rest => navItemHtmlPaths i ++ navForestHtmlPaths rest

end

/-- The `docs_dir` source prefix of `build_site` (`Path("docs")`). -/
def docs_dir : String := "docs/"

/-! Title/path pairs of the page nodes (those carrying a `"path"` key),
in traversal order across all nesting levels. -/
mutual

def pagesOfItem : NavItem → List (String × String)
  | .folder _ children => pagesOfForest children
  | .page _ none => []
  | .page title (some p) => [(title, p)]

def pagesOfForest : NavForest → List (String × String)
  | .nil => []
  | .cons i rest => pagesOfItem i ++ pagesOfForest rest

end

/-- Declared source paths of all page nodes, in traversal order. -/
def page_paths (f : NavForest) : List String :=
  (pagesOfForest f).map (fun tp => tp.2)

/-- Record of one page processed by `process_nav_item`/`process_file`:
its declared source path, computed output path, title, and the Markdown
text read from disk. -/
structure PageOut where
  src : String
  out : String
  title : String
  md : String

/-! The recursion `process_nav_item` of `build_site` (lines 285-295) over an
abstract input file system `fs` mapping a path to its contents (`none` when
the file does not exist): folders recurse into their children; a page node
with a `"path"` key whose source file `docs_dir / path` exists is processed
(exactly one record, in traversal order); anything else is skipped. -/
mutual

def process_nav_item (fs : String → Option String) : NavItem → List PageOut
  | .folder _ children => process_nav_forest fs children
  | .page _ none => []
  | .page title (some p) =>
    match fs (docs_dir ++ p) with
    | none => []
    | some content => [⟨p, html_path_of p, title, content⟩]

def process_nav_forest (fs : String → Option String) : NavForest → List PageOut
  | .nil => []
  | .cons i rest => process_nav_item fs i ++ process_nav_forest fs rest

end

/-- Relative base-path prefix computed by `process_file` (lines 301-303):
`'../' * depth` where `depth = html_path.count('/')`, or `'./'` when the
depth is zero. -/
def base_path_of (html_path : String) : String :=
  let depth := html_path.data.count '/'
  if depth > 0 then pyRepeat "../" depth else "./"

/-- Template filling of `process_file` (lines 316-319): four successive
literal substring replacements, in the order title, base path, navigation,
content. -/
def fill_template (title base_path nav_html html_content : String) : String :=
  let p1 := pyReplace get_html_template TITLE_TOKEN title
  let p2 := pyReplace p1 BASE_PATH_TOKEN base_path
  let p3 := pyReplace p2 NAVIGATION_TOKEN nav_html
  pyReplace p3 CONTENT_TOKEN html_content

/-- The function `process_file` of `build_site` (lines 297-326), as the text
written to the output file `html_path`: compute the base path from the
output path, convert the Markdown source, render the navigation for this
page, and fill the template. -/
def process_file (mdConvert : String → String) (md_content : String)
    (html_path title : String) : String :=
  let base_path := base_path_of html_path
  let html_content := convert_md_to_html mdConvert md_content
  let nav_html := generate_nav_html NAV_STRUCTURE html_path 0 base_path
  fill_template title base_path nav_html html_content

/-- Files written by one build pass over `f`: one `(output path, contents)`
pair per processed page, in traversal order (paths relative to the `site`
output directory, mirroring `output_dir / html_path`). -/
def page_writes (mdConvert : String → String) (fs : String → Option String)
    (f : NavForest) : List (String × String) :=
  (process_nav_forest fs f).map
    (fun r => (r.out, process_file mdConvert r.md r.out r.title))

/-- Source paths recorded in `processed_files` by `process_nav_item`. -/
def processed_files (fs : String → Option String) (f : NavForest) : List String :=
  (process_nav_forest fs f).map (fun r => r.src)

/-- Progress lines printed by `process_file` (`Processing: md -> html`),
modelled as the pair of the printed source and output paths. -/
def build_log (fs : String → Option String) (f : NavForest) : List (String × String) :=
  (process_nav_forest fs f).map (fun r => (docs_dir ++ r.src, r.out))

/-- State of the output directory: a map from path to file contents.
Writing a file overwrites the entry at its path. -/
def applyWrites (s0 : String → Option String) (w : List (String × String)) :
    String → Option String :=
  w.foldl (fun st e => fun q => if q == e.1 then some e.2 else st q) s0

/-- Contents of the last write at path `q`, if any. -/
def lastWrite : List (String × String) → String → Option String
  | [], _ => none
  | e :: w, q =>
    match lastWrite w q with
    | some v => some v
    | none => if q == e.1 then some e.2 else none

/-- Reading of the specification's base-path contract, stated independently
of the code: the prefix is the separator count's worth of `"../"` repetitions
folded together, or `"./"` when the output path has no separator. -/
def spec_base_path (out : String) : String :=
  if out.data.count '/' = 0 then "./"
  else (List.replicate (out.data.count '/') "../").foldr (fun a b => a ++ b) ""

/-- Modelled from the spec: the third-party Markdown-to-HTML converter
(`markdown.Markdown(extensions=[...]).convert`, not part of this repository)
passes a document consisting of a single raw block-level HTML element
through unchanged.  This predicate recognises such documents: a `<div ...>`
element with no fenced-code markers inside. -/
def isRawHtmlBlock (s : String) : Bool :=
  "<div".data.isPrefixOf s.data && "</div>".data.isSuffixOf s.data &&
    !containsSub s "```"

/-- Fuel irrelevance for the replace scanner: any fuel at least the input
length gives the same result. -/
theorem pyReplaceAux_fuel (pat rep : List Char) (f g : Nat) (s : List Char)
    (hf : s.length ≤ f) (hg : s.length ≤ g) :
    pyReplaceAux pat rep f s = pyReplaceAux pat rep g s := by
  induction f generalizing g s with
  | zero =>
    have hs : s = [] := List.length_eq_zero.mp (Nat.le_zero.mp hf)
    subst hs
    cases g <;> rfl
  | succ f ih =>
    cases s with
    | nil => cases g <;> rfl
    | cons c cs =>
      cases g with
      | zero => simp [List.length_cons] at hg
      | succ g =>
        simp only [pyReplaceAux]
        by_cases h : (!pat.isEmpty && pat.isPrefixOf (c :: cs)) = true
        · rw [if_pos h, if_pos h]
          have hpat : 1 ≤ pat.length := by
            cases pat with
            | nil => simp at h
            | cons a as => simp [List.length_cons]
          simp only [List.length_cons] at hf hg
          congr 1
          apply ih
          · simp only [List.length_drop, List.length_cons]; omega
          · simp only [List.length_drop, List.length_cons]; omega
        · rw [if_neg h, if_neg h]
          simp only [List.length_cons] at hf hg
          congr 1
          apply ih <;> omega

/-- Fuel irrelevance for the count scanner. -/
theorem pyCountAux_fuel (pat : List Char) (f g : Nat) (s : List Char)
    (hf : s.length ≤ f) (hg : s.length ≤ g) :
    pyCountAux pat f s = pyCountAux pat g s := by
  induction f generalizing g s with
  | zero =>
    have hs : s = [] := List.length_eq_zero.mp (Nat.le_zero.mp hf)
    subst hs
    cases g <;> rfl
  | succ f ih =>
    cases s with
    | nil => cases g <;> rfl
    | cons c cs =>
      cases g with
      | zero => simp [List.length_cons] at hg
      | succ g =>
        simp only [pyCountAux]
        by_cases h : (!pat.isEmpty && pat.isPrefixOf (c :: cs)) = true
        · rw [if_pos h, if_pos h]
          have hpat : 1 ≤ pat.length := by
            cases pat with
            | nil => simp at h
            | cons a as => simp [List.length_cons]
          simp only [List.length_cons] at hf hg
          congr 1
          apply ih
          · simp only [List.length_drop, List.length_cons]; omega
          · simp only [List.length_drop, List.length_cons]; omega
        · rw [if_neg h, if_neg h]
          simp only [List.length_cons] at hf hg
          apply ih <;> omega

/-- Defining equation of `pyReplL` on the empty string. -/
theorem pyReplL_nil (pat rep : List Char) : pyReplL pat rep [] = [] := rfl

/-- Defining equation of `pyReplL` at a match: the replacement is emitted
and scanning continues after the matched pattern. -/
theorem pyReplL_match (pat rep : List Char) (s : List Char)
    (h : (!pat.isEmpty && pat.isPrefixOf s) = true) :
    pyReplL pat rep s = rep ++ pyReplL pat rep (s.drop pat.length) := by
  cases s with
  | nil =>
    cases pat with
    | nil => simp at h
    | cons a as => simp [List.isPrefixOf] at h
  | cons c cs =>
    have hpat : 1 ≤ pat.length := by
      cases pat with
      | nil => simp at h
      | cons a as => simp [List.length_cons]
    show pyReplaceAux pat rep (c :: cs).length (c :: cs) = _
    simp only [List.length_cons, pyReplaceAux, if_pos h]
    congr 1
    apply pyReplaceAux_fuel
    · simp only [List.length_drop, List.length_cons]; omega
    · exact Nat.le_refl _

/-- Defining equation of `pyReplL` at a non-match: the head character is
kept and scanning continues. -/
theorem pyReplL_step (pat rep : List Char) (c : Char) (cs : List Char)
    (h : (!pat.isEmpty && pat.isPrefixOf (c :: cs)) = false) :
    pyReplL pat rep (c :: cs) = c :: pyReplL pat rep cs := by
  have h' : ¬ ((!pat.isEmpty && pat.isPrefixOf (c :: cs)) = true) := by
    rw [h]; exact Bool.false_ne_true
  show pyReplaceAux pat rep (c :: cs).length (c :: cs) = _
  simp only [List.length_cons, pyReplaceAux, if_neg h']
  rfl

/-- Character-list equality follows from the tail-recursive scanner. -/
theorem beqChars_eq : ∀ (a b : List Char), beqChars a b = true → a = b
  | [], [], _ => rfl
  | a :: as, b :: bs, h => by
    simp only [beqChars, Bool.and_eq_true, beq_iff_eq] at h
    rw [h.1, beqChars_eq as bs h.2]
  | [], _ :: _, h => by simp [beqChars] at h
  | _ :: _, [], h => by simp [beqChars] at h

/-- Every list is a `isPrefixOf`-prefix of itself followed by anything. -/
theorem isPrefixOf_self_append : ∀ (p b : List Char), p.isPrefixOf (p ++ b) = true
  | [], _ => by simp [List.isPrefixOf]
  | a :: as, b => by
    simp only [List.cons_append, List.isPrefixOf, beq_self_eq_true, Bool.true_and]
    exact isPrefixOf_self_append as b

/-- Replacement skips a prefix in which no occurrence of the pattern
starts. -/
theorem pyReplL_skip (pat rep : List Char) :
    ∀ (a b : List Char), noStartIn pat a b = true →
      pyReplL pat rep (a ++ b) = a ++ pyReplL pat rep b
  | [], _, _ => by simp
  | c :: a, b, h => by
    simp only [noStartIn, Bool.and_eq_true, Bool.not_eq_true'] at h
    rw [List.cons_append,
      pyReplL_step pat rep c (a ++ b) (by simp [List.cons_append] at h ⊢; simp [h.1]),
      pyReplL_skip pat rep a b h.2, List.cons_append]

/-- Replacement fires at an occurrence of the pattern. -/
theorem pyReplL_head (pat rep b : List Char) (hp : pat ≠ []) :
    pyReplL pat rep (pat ++ b) = rep ++ pyReplL pat rep b := by
  rw [pyReplL_match pat rep (pat ++ b)
      (by simp [isPrefixOf_self_append, List.isEmpty_iff, hp])]
  rw [List.drop_left]

/-- Replacement leaves a string without any occurrence unchanged. -/
theorem pyReplL_id (pat rep : List Char) :
    ∀ (s : List Char), containsSubL pat s = false → pyReplL pat rep s = s
  | [], _ => rfl
  | c :: cs, h => by
    simp only [containsSubL, Bool.or_eq_false_iff] at h
    rw [pyReplL_step pat rep c cs (by simp [h.1]),
      pyReplL_id pat rep cs h.2]

/-- A string containing the pattern in the middle passes the substring
test. -/
theorem containsSubL_mid : ∀ (x pat y : List Char),
    containsSubL pat (x ++ (pat ++ y)) = true
  | [], pat, y => by
    cases hpy : pat ++ y with
    | nil =>
      have : pat = [] := (List.append_eq_nil.mp hpy).1
      subst this
      simp [containsSubL, List.isPrefixOf]
    | cons c cs =>
      simp only [List.nil_append, hpy, containsSubL]
      rw [← hpy, isPrefixOf_self_append]
      rfl
  | c :: x, pat, y => by
    simp only [List.cons_append, containsSubL, List.append_eq]
    rw [containsSubL_mid x pat y, Bool.or_true]

/-- Decomposition of the shell template around its placeholder tokens: the
title, navigation and content tokens occur at one position each, the
base-path token at two. -/
theorem template_split :
    get_html_template.data =
      tmplSeg0.data ++ (TITLE_TOKEN.data ++ (tmplSeg1.data ++ (BASE_PATH_TOKEN.data ++
        (tmplSeg2.data ++ (BASE_PATH_TOKEN.data ++ (tmplSeg3.data ++
          (NAVIGATION_TOKEN.data ++ (tmplSeg4.data ++ (CONTENT_TOKEN.data ++
            tmplSeg5.data))))))))) :=
  beqChars_eq _ _ (by decide)

/-- Length bound for the shell template, established through the
tail-recursive length function. -/
theorem tmpl_len_le : get_html_template.data.length ≤ 3000 := by
  rw [List.length_eq_lengthTR]
  decide

/-- Occurrence counts over the template evaluate with a fixed fuel. -/
theorem pyCount_tmpl_eval (pat : List Char) :
    pyCntL pat get_html_template.data = pyCountAux pat 3000 get_html_template.data :=
  pyCountAux_fuel pat _ 3000 _ (Nat.le_refl _) tmpl_len_le

/-- Unfolding of `pyReplace` to the list level. -/
theorem pyReplace_data (s pat rep : String) :
    (pyReplace s pat rep).data = pyReplL pat.data rep.data s.data := rfl

/-- Unfolding of `fill_template` to its four sequential replacements. -/
theorem fill_template_def (title base_path nav_html html_content : String) :
    fill_template title base_path nav_html html_content =
      pyReplace (pyReplace (pyReplace (pyReplace get_html_template TITLE_TOKEN
        title) BASE_PATH_TOKEN base_path) NAVIGATION_TOKEN nav_html)
        CONTENT_TOKEN html_content := rfl

/-- Sequential template filling with sentinel title, base-path and
navigation values and arbitrary content: the title, navigation and content
values are inserted at one position each, the base-path value at two, and
the content value is inserted verbatim by the last replacement. -/
theorem fill_template_split (c : String) :
    fill_template "T9T" "B9B" "N9N" c =
      tmplSeg0 ++ "T9T" ++ tmplSeg1 ++ "B9B" ++ tmplSeg2 ++ "B9B" ++ tmplSeg3 ++
        "N9N" ++ tmplSeg4 ++ c ++ tmplSeg5 := by
  apply String.ext
  rw [fill_template_def]
  simp only [pyReplace_data]
  rw [template_split]
  rw [pyReplL_skip TITLE_TOKEN.data]
  rw [pyReplL_head TITLE_TOKEN.data]
  rw [pyReplL_id TITLE_TOKEN.data]
  rw [pyReplL_skip BASE_PATH_TOKEN.data]
  rw [pyReplL_skip BASE_PATH_TOKEN.data]
  rw [pyReplL_skip BASE_PATH_TOKEN.data]
  rw [pyReplL_head BASE_PATH_TOKEN.data]
  rw [pyReplL_skip BASE_PATH_TOKEN.data]
  rw [pyReplL_head BASE_PATH_TOKEN.data]
  rw [pyReplL_id BASE_PATH_TOKEN.data]
  rw [pyReplL_skip NAVIGATION_TOKEN.data]
  rw [pyReplL_skip NAVIGATION_TOKEN.data]
  rw [pyReplL_skip NAVIGATION_TOKEN.data]
  rw [pyReplL_skip NAVIGATION_TOKEN.data]
  rw [pyReplL_skip NAVIGATION_TOKEN.data]
  rw [pyReplL_skip NAVIGATION_TOKEN.data]
  rw [pyReplL_skip NAVIGATION_TOKEN.data]
  rw [pyReplL_head NAVIGATION_TOKEN.data]
  rw [pyReplL_id NAVIGATION_TOKEN.data]
  rw [pyReplL_skip CONTENT_TOKEN.data]
  rw [pyReplL_skip CONTENT_TOKEN.data]
  rw [pyReplL_skip CONTENT_TOKEN.data]
  rw [pyReplL_skip CONTENT_TOKEN.data]
  rw [pyReplL_skip CONTENT_TOKEN.data]
  rw [pyReplL_skip CONTENT_TOKEN.data]
  rw [pyReplL_skip CONTENT_TOKEN.data]
  rw [pyReplL_skip CONTENT_TOKEN.data]
  rw [pyReplL_skip CONTENT_TOKEN.data]
  rw [pyReplL_head CONTENT_TOKEN.data]
  rw [pyReplL_id CONTENT_TOKEN.data]
  · simp [String.data_append, List.append_assoc]
  all_goals decide

/-- Sequential template filling when the navigation value itself contains
the content token verbatim: the later content replacement substitutes the
content value at that position too, so the content value is inserted at two
positions. -/
theorem fill_template_split_navtok (c : String) :
    fill_template "T9T" "B9B" CONTENT_TOKEN c =
      tmplSeg0 ++ "T9T" ++ tmplSeg1 ++ "B9B" ++ tmplSeg2 ++ "B9B" ++ tmplSeg3 ++
        c ++ tmplSeg4 ++ c ++ tmplSeg5 := by
  apply String.ext
  rw [fill_template_def]
  simp only [pyReplace_data]
  rw [template_split]
  rw [pyReplL_skip TITLE_TOKEN.data]
  rw [pyReplL_head TITLE_TOKEN.data]
  rw [pyReplL_id TITLE_TOKEN.data]
  rw [pyReplL_skip BASE_PATH_TOKEN.data]
  rw [pyReplL_skip BASE_PATH_TOKEN.data]
  rw [pyReplL_skip BASE_PATH_TOKEN.data]
  rw [pyReplL_head BASE_PATH_TOKEN.data]
  rw [pyReplL_skip BASE_PATH_TOKEN.data]
  rw [pyReplL_head BASE_PATH_TOKEN.data]
  rw [pyReplL_id BASE_PATH_TOKEN.data]
  rw [pyReplL_skip NAVIGATION_TOKEN.data]
  rw [pyReplL_skip NAVIGATION_TOKEN.data]
  rw [pyReplL_skip NAVIGATION_TOKEN.data]
  rw [pyReplL_skip NAVIGATION_TOKEN.data]
  rw [pyReplL_skip NAVIGATION_TOKEN.data]
  rw [pyReplL_skip NAVIGATION_TOKEN.data]
  rw [pyReplL_skip NAVIGATION_TOKEN.data]
  rw [pyReplL_head NAVIGATION_TOKEN.data]
  rw [pyReplL_id NAVIGATION_TOKEN.data]
  rw [pyReplL_skip CONTENT_TOKEN.data]
  rw [pyReplL_skip CONTENT_TOKEN.data]
  rw [pyReplL_skip CONTENT_TOKEN.data]
  rw [pyReplL_skip CONTENT_TOKEN.data]
  rw [pyReplL_skip CONTENT_TOKEN.data]
  rw [pyReplL_skip CONTENT_TOKEN.data]
  rw [pyReplL_skip CONTENT_TOKEN.data]
  rw [pyReplL_head CONTENT_TOKEN.data]
  rw [pyReplL_skip CONTENT_TOKEN.data]
  rw [pyReplL_head CONTENT_TOKEN.data]
  rw [pyReplL_id CONTENT_TOKEN.data]
  · simp [String.data_append, List.append_assoc]
  all_goals decide

/-- Substring test is preserved by prepending. -/
theorem containsSubL_append_right (pat : List Char) :
    ∀ (a b : List Char), containsSubL pat b = true →
      containsSubL pat (a ++ b) = true
  | [], _, h => h
  | c :: a, b, h => by
    simp only [List.cons_append, containsSubL, List.append_eq]
    rw [containsSubL_append_right pat a b h, Bool.or_true]

/-- Substring test succeeds at the head. -/
theorem containsSubL_here (pat y : List Char) : containsSubL pat (pat ++ y) = true := by
  have h := containsSubL_mid [] pat y
  simpa using h

/-- Python's string repetition agrees with folding the replicated list. -/
theorem pyRepeat_foldr (s : String) :
    ∀ n, pyRepeat s n = (List.replicate n s).foldr (fun a b => a ++ b) ""
  | 0 => rfl
  | n + 1 => by
    simp only [pyRepeat, List.replicate, List.foldr]
    rw [pyRepeat_foldr s n]

/-- Lookup characterisation of sequentially applied writes. -/
theorem applyWrites_lookup (w : List (String × String)) :
    ∀ (s0 : String → Option String) (q : String),
      applyWrites s0 w q = (lastWrite w q).or (s0 q) := by
  induction w with
  | nil => intro s0 q; rfl
  | cons e w ih =>
    intro s0 q
    show applyWrites (fun p => if p == e.1 then some e.2 else s0 p) w q = _
    rw [ih]
    cases h : lastWrite w q with
    | some v => simp [lastWrite, h, Option.or]
    | none =>
      simp only [lastWrite, h, Option.or]
      by_cases hq : q == e.1
      · simp [hq]
      · simp [hq]

/-- Applying the same write list twice leaves the directory exactly as one
application does. -/
theorem applyWrites_idem (w : List (String × String)) (s0 : String → Option String) :
    applyWrites (applyWrites s0 w) w = applyWrites s0 w := by
  funext q
  rw [applyWrites_lookup, applyWrites_lookup]
  cases h : lastWrite w q <;> simp [Option.or]

/-! Characterisation of the traversal: the processed records are exactly the
page nodes with a path whose source file exists, each carrying its computed
output path and the file contents. -/
mutual

theorem process_item_eq (fs : String → Option String) :
    (i : NavItem) → process_nav_item fs i =
      ((pagesOfItem i).filter (fun tp => (fs (docs_dir ++ tp.2)).isSome)).map
        (fun tp => ⟨tp.2, html_path_of tp.2, tp.1, (fs (docs_dir ++ tp.2)).getD ""⟩)
  | .folder t ch => by
    simp only [process_nav_item, pagesOfItem]
    exact process_forest_eq fs ch
  | .page t none => by simp [process_nav_item, pagesOfItem]
  | .page t (some p) => by
    simp only [process_nav_item, pagesOfItem]
    cases h : fs (docs_dir ++ p) with
    | none => simp [List.filter, h]
    | some content => simp [List.filter, h]

theorem process_forest_eq (fs : String → Option String) :
    (f : NavForest) → process_nav_forest fs f =
      ((pagesOfForest f).filter (fun tp => (fs (docs_dir ++ tp.2)).isSome)).map
        (fun tp => ⟨tp.2, html_path_of tp.2, tp.1, (fs (docs_dir ++ tp.2)).getD ""⟩)
  | .nil => rfl
  | .cons i rest => by
    simp only [process_nav_forest, pagesOfForest, List.filter_append, List.map_append]
    rw [process_item_eq fs i, process_forest_eq fs rest]

end

/-- Sources recorded as processed are the page paths whose file exists. -/
theorem processed_files_eq (fs : String → Option String) (f : NavForest) :
    processed_files fs f =
      (page_paths f).filter (fun p => (fs (docs_dir ++ p)).isSome) := by
  unfold processed_files page_paths
  rw [process_forest_eq, List.filter_map, List.map_map]
  rfl

/-- Written files, characterised over the filtered page list. -/
theorem page_writes_eq (mdConvert : String → String) (fs : String → Option String)
    (f : NavForest) :
    page_writes mdConvert fs f =
      ((pagesOfForest f).filter (fun tp => (fs (docs_dir ++ tp.2)).isSome)).map
        (fun tp => (html_path_of tp.2,
          process_file mdConvert ((fs (docs_dir ++ tp.2)).getD "")
            (html_path_of tp.2) tp.1)) := by
  unfold page_writes
  rw [process_forest_eq, List.map_map]
  rfl

/-- Logged progress lines, characterised over the filtered page list. -/
theorem build_log_eq (fs : String → Option String) (f : NavForest) :
    build_log fs f =
      ((pagesOfForest f).filter (fun tp => (fs (docs_dir ++ tp.2)).isSome)).map
        (fun tp => (docs_dir ++ tp.2, html_path_of tp.2)) := by
  unfold build_log
  rw [process_forest_eq, List.map_map]
  rfl

/-- Computed output paths of the navigation pages are pairwise distinct. -/
theorem nav_html_paths_nodup : ((page_paths NAV_STRUCTURE).map html_path_of).Nodup := by
  decide

/-- C3: for every output path, the computed base-path prefix equals `"../"`
repeated once per path-separator character of the output path, and `"./"`
when the output path contains no separator; in particular it is `"../"` for
`api/websocket-api.html` and `"./"` for `index.html`. -/
theorem c3_base_path_rule :
    (∀ out : String, base_path_of out = spec_base_path out) ∧
      base_path_of "api/websocket-api.html" = "../" ∧
      base_path_of "index.html" = "./" := by
  refine ⟨fun out => ?_, by decide, by decide⟩
  unfold base_path_of spec_base_path
  by_cases h : out.data.count '/' = 0
  · simp [h]
  · have hp : out.data.count '/' > 0 := Nat.pos_of_ne_zero h
    simp [h, hp, pyRepeat_foldr]

/-- C5: after the build over any input file system, the reported count of
processed files equals the number of page nodes, across all nesting levels
of the navigation tree, whose declared source file existed. -/
theorem c5_processed_count (fs : String → Option String) :
    (processed_files fs NAV_STRUCTURE).length =
      ((page_paths NAV_STRUCTURE).filter
        (fun p => (fs (docs_dir ++ p)).isSome)).length := by
  rw [processed_files_eq]

/-- C8: the build is deterministic and idempotent with respect to its
output: its write list is a pure function of the input file system, and
applying the same writes a second time leaves every output file
byte-identical to the first run's result. -/
theorem c8_idempotent_build (mdConvert : String → String)
    (fs s0 : String → Option String) :
    applyWrites (applyWrites s0 (page_writes mdConvert fs NAV_STRUCTURE))
        (page_writes mdConvert fs NAV_STRUCTURE) =
      applyWrites s0 (page_writes mdConvert fs NAV_STRUCTURE) :=
  applyWrites_idem _ _

/-- C7: a page node whose declared source file does not exist is silently
skipped: it is absent from the processed list, no file is written at its
output path, and no progress line mentions its source path; the build (a
total function here) still completes. -/
theorem c7_missing_source_skipped (mdConvert : String → String)
    (fs : String → Option String) (p : String)
    (hp : p ∈ page_paths NAV_STRUCTURE)
    (hmiss : fs (docs_dir ++ p) = none) :
    p ∉ processed_files fs NAV_STRUCTURE ∧
      (∀ w ∈ page_writes mdConvert fs NAV_STRUCTURE, w.1 ≠ html_path_of p) ∧
      (∀ e ∈ build_log fs NAV_STRUCTURE, e.1 ≠ docs_dir ++ p) := by
  refine ⟨?_, ?_, ?_⟩
  · rw [processed_files_eq]
    intro hmem
    have h2 := (List.mem_filter.mp hmem).2
    rw [hmiss] at h2
    simp at h2
  · intro w hw
    rw [page_writes_eq] at hw
    obtain ⟨tp, htp, rfl⟩ := List.mem_map.mp hw
    have h1 : tp ∈ pagesOfForest NAV_STRUCTURE := (List.mem_filter.mp htp).1
    have h2 := (List.mem_filter.mp htp).2
    intro heq
    have heq' : html_path_of tp.2 = html_path_of p := heq
    have htp2 : tp.2 ∈ page_paths NAV_STRUCTURE :=
      List.mem_map_of_mem (fun tp => tp.2) h1
    have : tp.2 = p :=
      List.inj_on_of_nodup_map nav_html_paths_nodup htp2 hp heq'
    rw [this, hmiss] at h2
    simp at h2
  · intro e he
    rw [build_log_eq] at he
    obtain ⟨tp, htp, rfl⟩ := List.mem_map.mp he
    have h2 := (List.mem_filter.mp htp).2
    intro heq
    have heq' : docs_dir ++ tp.2 = docs_dir ++ p := heq
    rw [heq', hmiss] at h2
    simp at h2

/-- Witness for C7 at a concrete input: with every source file missing, the
home page is skipped without any write or progress line. -/
theorem c7_missing_source_skipped_witness :
    ("index.md" ∈ page_paths NAV_STRUCTURE ∧
        (fun _ => (none : Option String)) (docs_dir ++ "index.md") = none) ∧
      ("index.md" ∉ processed_files (fun _ => none) NAV_STRUCTURE ∧
        (∀ w ∈ page_writes (fun s => s) (fun _ => none) NAV_STRUCTURE,
          w.1 ≠ html_path_of "index.md") ∧
        (∀ e ∈ build_log (fun _ => none) NAV_STRUCTURE,
          e.1 ≠ docs_dir ++ "index.md")) :=
  ⟨⟨by decide, rfl⟩,
    c7_missing_source_skipped (fun s => s) (fun _ => none) "index.md" (by decide) rfl⟩

/-- C2: for every page node whose source file exists, the build writes
exactly one output file whose path is the page's source path with `.md`
replaced by `.html`; the replacement is a plain substring replacement that
affects every occurrence of `.md`, not only a trailing extension. -/
theorem c2_unique_output_file (mdConvert : String → String)
    (fs : String → Option String) (p : String)
    (hp : p ∈ page_paths NAV_STRUCTURE)
    (hex : (fs (docs_dir ++ p)).isSome = true) :
    ((page_writes mdConvert fs NAV_STRUCTURE).filter
        (fun w => w.1 == html_path_of p)).length = 1 ∧
      html_path_of "guide.md/notes.md" = "guide.html/notes.html" ∧
      html_path_of "api/websocket-api.md" = "api/websocket-api.html" := by
  refine ⟨?_, by decide, by decide⟩
  rw [page_writes_eq, ← List.countP_eq_length_filter]
  have key : List.countP
      (fun w => w.1 == html_path_of p)
      (((pagesOfForest NAV_STRUCTURE).filter
          (fun tp => (fs (docs_dir ++ tp.2)).isSome)).map
        (fun tp => (html_path_of tp.2,
          process_file mdConvert ((fs (docs_dir ++ tp.2)).getD "")
            (html_path_of tp.2) tp.1))) =
      List.count (html_path_of p)
        (((pagesOfForest NAV_STRUCTURE).filter
            (fun tp => (fs (docs_dir ++ tp.2)).isSome)).map
          (fun tp => html_path_of tp.2)) := by
    rw [List.countP_map, List.count_eq_countP, List.countP_map]
    rfl
  rw [key]
  have hsub : (((pagesOfForest NAV_STRUCTURE).filter
        (fun tp => (fs (docs_dir ++ tp.2)).isSome)).map
      (fun tp => html_path_of tp.2)).Nodup := by
    have hs : List.Sublist
        (((pagesOfForest NAV_STRUCTURE).filter
            (fun tp => (fs (docs_dir ++ tp.2)).isSome)).map
          (fun tp => html_path_of tp.2))
        ((pagesOfForest NAV_STRUCTURE).map (fun tp => html_path_of tp.2)) :=
      List.Sublist.map _ (List.filter_sublist _)
    apply List.Nodup.sublist hs
    have : (pagesOfForest NAV_STRUCTURE).map (fun tp => html_path_of tp.2) =
        (page_paths NAV_STRUCTURE).map html_path_of := by
      unfold page_paths
      rw [List.map_map]
      rfl
    rw [this]
    exact nav_html_paths_nodup
  obtain ⟨tp, htp, htp2⟩ := List.mem_map.mp hp
  have hmemf : tp ∈ (pagesOfForest NAV_STRUCTURE).filter
      (fun tp => (fs (docs_dir ++ tp.2)).isSome) := by
    apply List.mem_filter.mpr
    refine ⟨htp, ?_⟩
    show (fs (docs_dir ++ tp.2)).isSome = true
    rw [htp2]
    exact hex
  have hmem : html_path_of p ∈ ((pagesOfForest NAV_STRUCTURE).filter
      (fun tp => (fs (docs_dir ++ tp.2)).isSome)).map
      (fun tp => html_path_of tp.2) := by
    rw [← htp2]
    exact List.mem_map_of_mem (fun tp => html_path_of tp.2) hmemf
  exact List.count_eq_one_of_mem hsub hmem

/-- Witness for C2 at a concrete input: with every source present, exactly
one file is written at `index.html` for the page `index.md`. -/
theorem c2_unique_output_file_witness :
    ("index.md" ∈ page_paths NAV_STRUCTURE) ∧
      ((page_writes (fun s => s) (fun _ => some "body") NAV_STRUCTURE).filter
          (fun w => w.1 == html_path_of "index.md")).length = 1 ∧
        html_path_of "guide.md/notes.md" = "guide.html/notes.html" ∧
        html_path_of "api/websocket-api.md" = "api/websocket-api.html" :=
  ⟨by decide,
    c2_unique_output_file (fun s => s) (fun _ => some "body") "index.md"
      (by decide) rfl⟩

/-- C1 counterexample: the base-path placeholder occurs (and is therefore
substituted) twice in the shell template, not exactly once — the template
references the base path both for the stylesheet link and for the home
link, and `str.replace` substitutes the value at both occurrences. -/
theorem c1_counterexample :
    pyCount get_html_template BASE_PATH_TOKEN = 2 ∧
      fill_template "T9T" "B9B" "N9N" "C9C" =
        tmplSeg0 ++ "T9T" ++ tmplSeg1 ++ "B9B" ++ tmplSeg2 ++ "B9B" ++ tmplSeg3 ++
          "N9N" ++ tmplSeg4 ++ "C9C" ++ tmplSeg5 := by
  constructor
  · show pyCntL BASE_PATH_TOKEN.data get_html_template.data = 2
    rw [pyCount_tmpl_eval]
    decide
  · exact fill_template_split "C9C"

/-- C1 amended: the page assembler substitutes the four placeholder tokens
by literal substring replacement in the fixed order title, base path,
navigation, content; the title, navigation and content tokens occur (and
are substituted) exactly once in the shell template, while the base-path
token occurs and is substituted at exactly two places. -/
theorem c1_amended_assembly :
    (∀ title base_path nav_html html_content,
      fill_template title base_path nav_html html_content =
        pyReplace (pyReplace (pyReplace (pyReplace get_html_template TITLE_TOKEN
          title) BASE_PATH_TOKEN base_path) NAVIGATION_TOKEN nav_html)
          CONTENT_TOKEN html_content) ∧
      pyCount get_html_template TITLE_TOKEN = 1 ∧
      pyCount get_html_template BASE_PATH_TOKEN = 2 ∧
      pyCount get_html_template NAVIGATION_TOKEN = 1 ∧
      pyCount get_html_template CONTENT_TOKEN = 1 ∧
      (∀ c, fill_template "T9T" "B9B" "N9N" c =
        tmplSeg0 ++ "T9T" ++ tmplSeg1 ++ "B9B" ++ tmplSeg2 ++ "B9B" ++ tmplSeg3 ++
          "N9N" ++ tmplSeg4 ++ c ++ tmplSeg5) := by
  refine ⟨fill_template_def, ?_, ?_, ?_, ?_, fill_template_split⟩
  · show pyCntL TITLE_TOKEN.data get_html_template.data = 1
    rw [pyCount_tmpl_eval]
    decide
  · show pyCntL BASE_PATH_TOKEN.data get_html_template.data = 2
    rw [pyCount_tmpl_eval]
    decide
  · show pyCntL NAVIGATION_TOKEN.data get_html_template.data = 1
    rw [pyCount_tmpl_eval]
    decide
  · show pyCntL CONTENT_TOKEN.data get_html_template.data = 1
    rw [pyCount_tmpl_eval]
    decide

/-- C9 counterexample: a placeholder token arriving verbatim inside the
rendered content is NOT substituted during page assembly — the content is
inserted by the last replacement and replacement output is never rescanned.
The title token survives in the output, the output differs from what actual
substitution would have produced, and a title-token-free content yields an
output without the token. -/
theorem c9_counterexample :
    containsSub (fill_template "T9T" "B9B" "N9N" TITLE_TOKEN) TITLE_TOKEN = true ∧
      containsSub (fill_template "T9T" "B9B" "N9N" "T9T") TITLE_TOKEN = false ∧
      fill_template "T9T" "B9B" "N9N" TITLE_TOKEN ≠
        fill_template "T9T" "B9B" "N9N" "T9T" := by
  have hT : containsSub (fill_template "T9T" "B9B" "N9N" TITLE_TOKEN)
      TITLE_TOKEN = true := by
    show containsSubL TITLE_TOKEN.data
      (fill_template "T9T" "B9B" "N9N" TITLE_TOKEN).data = true
    rw [fill_template_split]
    simp only [String.data_append, List.append_assoc]
    apply containsSubL_append_right
    apply containsSubL_append_right
    apply containsSubL_append_right
    apply containsSubL_append_right
    apply containsSubL_append_right
    apply containsSubL_append_right
    apply containsSubL_append_right
    apply containsSubL_append_right
    apply containsSubL_append_right
    exact containsSubL_here _ _
  have hF : containsSub (fill_template "T9T" "B9B" "N9N" "T9T")
      TITLE_TOKEN = false := by
    show containsSubL TITLE_TOKEN.data
      (fill_template "T9T" "B9B" "N9N" "T9T").data = false
    rw [fill_template_split]
    simp only [String.data_append]
    decide
  refine ⟨hT, hF, fun h => ?_⟩
  rw [h, hF] at hT
  exact Bool.false_ne_true hT

/-- C9 amended: the rendered content is inserted verbatim by the final
replacement, so placeholder tokens inside it survive unsubstituted; by
contrast, a token inside an earlier-substituted value (here the navigation
markup) is substituted by the later content replacement, so the content is
inserted at two positions. -/
theorem c9_amended_content_last :
    (∀ c, containsSub (fill_template "T9T" "B9B" "N9N" c) c = true) ∧
      (∀ c, fill_template "T9T" "B9B" CONTENT_TOKEN c =
        tmplSeg0 ++ "T9T" ++ tmplSeg1 ++ "B9B" ++ tmplSeg2 ++ "B9B" ++ tmplSeg3 ++
          c ++ tmplSeg4 ++ c ++ tmplSeg5) := by
  refine ⟨fun c => ?_, fill_template_split_navtok⟩
  show containsSubL c.data (fill_template "T9T" "B9B" "N9N" c).data = true
  rw [fill_template_split]
  simp only [String.data_append, List.append_assoc]
  apply containsSubL_append_right
  apply containsSubL_append_right
  apply containsSubL_append_right
  apply containsSubL_append_right
  apply containsSubL_append_right
  apply containsSubL_append_right
  apply containsSubL_append_right
  apply containsSubL_append_right
  apply containsSubL_append_right
  exact containsSubL_here _ _

/-- C4 counterexample: uniqueness of the page nodes' SOURCE paths does not
guarantee a unique active link, because activeness compares computed OUTPUT
paths, and the `.md` → `.html` substitution is not injective: the distinct
source paths `x.md` and `x.html` both yield output path `x.html`, so when
that page is current both rendered links carry the active class. -/
theorem c4_counterexample :
    (page_paths (NavForest.ofList [NavItem.page "A" (some "x.md"),
        NavItem.page "B" (some "x.html")])).Nodup ∧
      html_path_of "x.md" = html_path_of "x.html" ∧
      pyCount (generate_nav_html (NavForest.ofList [NavItem.page "A" (some "x.md"),
        NavItem.page "B" (some "x.html")]) "x.html" 0 "") " active\"" = 2 := by
  refine ⟨by decide, by decide, by decide⟩

/-- C4 amended: a page link is rendered with the active class iff its
computed output path string-equals the current page's output path; under
the (stronger) invariant that the computed OUTPUT paths are unique, the
current page's output path occurs exactly once among the rendered links —
as it does for the real navigation tree, whose output paths are pairwise
distinct; a small concrete rendering shows exactly one active marker. -/
theorem c4_amended_active_marking :
    (∀ title path? cur d bp,
      generate_nav_html (NavForest.ofList [NavItem.page title path?]) cur d bp =
        "<li class=\"nav-item depth-" ++ toString d ++
          (if html_path_of (path?.getD "") == cur then " active" else "") ++
          "\">" ++ "\n" ++ "<a href=\"" ++ bp ++ html_path_of (path?.getD "") ++
          "\">" ++ title ++ "</a>" ++ "\n" ++ "</li>") ∧
      (∀ f cur, (navForestHtmlPaths f).Nodup → cur ∈ navForestHtmlPaths f →
        (navForestHtmlPaths f).count cur = 1) ∧
      (navForestHtmlPaths NAV_STRUCTURE).Nodup ∧
      pyCount (generate_nav_html (NavForest.ofList [NavItem.page "Home"
          (some "index.md"),
        NavItem.folder "API" (NavForest.ofList [NavItem.page "WebSocket API"
          (some "api/websocket-api.md")])]) "api/websocket-api.html" 0 "../")
        " active\"" = 1 := by
  refine ⟨?_, ?_, by decide, by decide⟩
  · intro title path? cur d bp
    apply String.ext
    cases h : html_path_of (path?.getD "") == cur with
    | true =>
      simp only [generate_nav_html, navForestLines, navItemLines, NavForest.ofList,
        joinWith, h, if_true, String.data_append, List.append_assoc]
    | false =>
      simp only [generate_nav_html, navForestLines, navItemLines, NavForest.ofList,
        joinWith, h, if_false, String.data_append, List.append_assoc]
  · intro f cur h1 h2
    exact List.count_eq_one_of_mem h1 h2

/-- Witness for C4 amended at a concrete forest: the home page's output path
occurs exactly once among the rendered links. -/
theorem c4_amended_active_marking_witness :
    ((navForestHtmlPaths (NavForest.ofList [NavItem.page "Home" (some "index.md"),
          NavItem.page "Glossary" (some "glossary.md")])).Nodup ∧
        "index.html" ∈ navForestHtmlPaths (NavForest.ofList
          [NavItem.page "Home" (some "index.md"),
           NavItem.page "Glossary" (some "glossary.md")])) ∧
      (navForestHtmlPaths (NavForest.ofList [NavItem.page "Home" (some "index.md"),
        NavItem.page "Glossary" (some "glossary.md")])).count "index.html" = 1 :=
  ⟨⟨by decide, by decide⟩,
    c4_amended_active_marking.2.1
      (NavForest.ofList [NavItem.page "Home" (some "index.md"),
        NavItem.page "Glossary" (some "glossary.md")])
      "index.html" (by decide) (by decide)⟩

/-- C6: for Markdown input consisting of a mermaid-tagged fenced block with
body `graph TD; A-->B`, the pre-pass rewrites it into a
`<div class="mermaid">` container wrapping exactly the trimmed body, and —
assuming the external Markdown converter passes a raw block-level HTML
document through unchanged — the renderer's output fragment contains that
container and no literal code block. -/
theorem c6_mermaid_diagram (mdConvert : String → String)
    (hmd : ∀ s, isRawHtmlBlock s = true → mdConvert s = s) :
    mermaid_sub "```mermaid\ngraph TD; A-->B\n```" =
        "<div class=\"mermaid\">\ngraph TD; A-->B\n</div>" ∧
      containsSub (convert_md_to_html mdConvert "```mermaid\ngraph TD; A-->B\n```")
        "<div class=\"mermaid\">\ngraph TD; A-->B\n</div>" = true ∧
      containsSub (convert_md_to_html mdConvert "```mermaid\ngraph TD; A-->B\n```")
        "<code>" = false ∧
      containsSub (convert_md_to_html mdConvert "```mermaid\ngraph TD; A-->B\n```")
        "```" = false := by
  have hms : mermaid_sub "```mermaid\ngraph TD; A-->B\n```" =
      "<div class=\"mermaid\">\ngraph TD; A-->B\n</div>" := by decide
  have hout : convert_md_to_html mdConvert "```mermaid\ngraph TD; A-->B\n```" =
      "<div class=\"mermaid\">\ngraph TD; A-->B\n</div>" := by
    unfold convert_md_to_html
    rw [hms]
    exact hmd _ (by decide)
  refine ⟨hms, ?_, ?_, ?_⟩ <;> rw [hout] <;> decide

/-- Witness for C6 with the identity converter, which trivially preserves
raw HTML blocks. -/
theorem c6_mermaid_diagram_witness :
    mermaid_sub "```mermaid\ngraph TD; A-->B\n```" =
        "<div class=\"mermaid\">\ngraph TD; A-->B\n</div>" ∧
      containsSub (convert_md_to_html (fun s => s) "```mermaid\ngraph TD; A-->B\n```")
        "<div class=\"mermaid\">\ngraph TD; A-->B\n</div>" = true ∧
      containsSub (convert_md_to_html (fun s => s) "```mermaid\ngraph TD; A-->B\n```")
        "<code>" = false ∧
      containsSub (convert_md_to_html (fun s => s) "```mermaid\ngraph TD; A-->B\n```")
        "```" = false :=
  c6_mermaid_diagram (fun s => s) (fun _ _ => rfl)

/-- C10: a navigation item with neither children nor path is still rendered
by the navigation renderer as a page link whose target is exactly the
base-path prefix (its computed output path is empty) and which is active
iff the current page's output path is the empty string; the site builder's
traversal skips such an item entirely — no record, no write, no processed
entry. -/
theorem c10_pathless_item (fs : String → Option String) :
    (∀ title cur d bp,
      generate_nav_html (NavForest.ofList [NavItem.page title none]) cur d bp =
        "<li class=\"nav-item depth-" ++ toString d ++
          (if ("" : String) == cur then " active" else "") ++ "\">" ++ "\n" ++
          "<a href=\"" ++ bp ++ "\">" ++ title ++ "</a>" ++ "\n" ++ "</li>") ∧
      (∀ title, process_nav_forest fs
        (NavForest.ofList [NavItem.page title none]) = []) ∧
      (∀ title, processed_files fs
        (NavForest.ofList [NavItem.page title none]) = []) ∧
      (∀ mdConvert title, page_writes mdConvert fs
        (NavForest.ofList [NavItem.page title none]) = []) := by
  refine ⟨?_, fun _ => rfl, fun _ => rfl, fun _ _ => rfl⟩
  intro title cur d bp
  have h0 : html_path_of "" = "" := rfl
  apply String.ext
  cases h : ("" : String) == cur with
  | true =>
    simp only [generate_nav_html, navForestLines, navItemLines, NavForest.ofList,
      joinWith, Option.getD, h0, h, if_true, String.data_append,
      List.append_assoc, List.append_nil, List.nil_append]
  | false =>
    simp only [generate_nav_html, navForestLines, navItemLines, NavForest.ofList,
      joinWith, Option.getD, h0, h, if_false, String.data_append,
      List.append_assoc, List.append_nil, List.nil_append]
